import Mathlib

/-!
Shallow embedding of the rust-cratedb client library (src/): the JSON value
model used by the SQL protocol layer, the error types (src/error.rs), the
HTTP status classification (src/backend.rs), the row accessors (src/row.rs),
the cluster construction and load balancing (src/dbcluster.rs), the SQL
query/decode pipeline (src/sql.rs) and the blob content store (src/blob.rs).

Rust panics (`unwrap` on `None`/`Err`) are modelled by `Option`: a function
that can panic returns `Option α` and `none` means the Rust code panics.
External capabilities (serde_json string parsing, hyper URL parsing, the
ring SHA-1 compression function, the transport behind the `Backend` trait,
and the `random` source of the load balancer) are passed in as parameters;
everything else is translated from the source.
-/

namespace CrateDB

/-- Model of serde_json numbers: the u64 / i64 / f64 arms of
`serde_json::Number` (the float payload is modelled as a rational). -/
inductive JNum where
  | posInt (n : Nat)
  | negInt (i : Int)
  | float (q : Rat)
deriving DecidableEq

/-- Model of `serde_json::Value`. -/
inductive Value where
  | null
  | bool (b : Bool)
  | num (n : JNum)
  | str (s : String)
  | arr (vs : List Value)
  | obj (fields : List (String × Value))

/-- `Value::as_str`. -/
def Value.as_str : Value → Option String
  | .str s => some s
  | _ => none

/-- Largest i64, used by `Number::as_i64` on the u64 arm. -/
def i64Max : Nat := 9223372036854775807

/-- `Value::as_i64`: integers representable as i64; floats give `None`. -/
def Value.as_i64 : Value → Option Int
  | .num (.posInt n) => if n ≤ i64Max then some (n : Int) else none
  | .num (.negInt i) => some i
  | _ => none

/-- `Value::as_u64`: non-negative integers; floats and negatives give `None`. -/
def Value.as_u64 : Value → Option Nat
  | .num (.posInt n) => some n
  | _ => none

/-- `Value::as_f64`: any JSON number converts. -/
def Value.as_f64 : Value → Option Rat
  | .num (.posInt n) => some (n : Rat)
  | .num (.negInt i) => some (i : Rat)
  | .num (.float q) => some q
  | _ => none

/-- `Value::as_bool`. -/
def Value.as_bool : Value → Option Bool
  | .bool b => some b
  | _ => none

/-- `Value::as_array`. -/
def Value.as_array : Value → Option (List Value)
  | .arr vs => some vs
  | _ => none

/-- Object member lookup (serde_json map access; parsed maps have unique keys). -/
def objGet (fields : List (String × Value)) (k : String) : Option Value :=
  match fields with
  | [] => none
  | (k2, v) :: rest => if k2 = k then some v else objGet rest k

/-- `Value::pointer` restricted to a path of object member names (the only
form the source uses, e.g. `/error/message`). -/
def Value.pointerPath : Value → List String → Option Value
  | v, [] => some v
  | .obj fields, k :: rest =>
      match objGet fields k with
      | some v2 => v2.pointerPath rest
      | none => none
  | _, _ :: _ => none

/-- Sequence an option-producing function over a list (models a Rust
iterator of fallible steps where any failure aborts, and `collect`
of unwrapped values where any failure panics). -/
def optList (f : α → Option β) : List α → Option (List β)
  | [] => some []
  | a :: rest =>
      match f a with
      | none => none
      | some b =>
          match optList f rest with
          | none => none
          | some bs => some (b :: bs)

/-- `CrateDBError` (src/error.rs): structured server error. -/
structure CrateDBError where
  message : String
  code : String
  description : String
deriving DecidableEq

/-- `CrateDBError::new`: derives the description from code and message. -/
def CrateDBError.new (message code : String) : CrateDBError :=
  { message := message
    code := code
    description := "Error [Code " ++ code ++ "]: " ++ message }

/-- `BackendError` (src/error.rs): transport-level failure carrying a description. -/
structure BackendError where
  description : String
deriving DecidableEq

/-- `CrateDBConfigurationError` (src/error.rs). -/
structure CrateDBConfigurationError where
  description : String
deriving DecidableEq

/-- `BlobError` (src/error.rs): either a protocol-level action error or a
transport failure. -/
inductive BlobError where
  | action (e : CrateDBError)
  | transport (e : BackendError)
deriving DecidableEq

/-- `BackendResult` (src/backend.rs): normalized outcome classification. -/
inductive BackendResult where
  | notFound
  | notAuthorized
  | timeout
  | error
  | ok
deriving DecidableEq

/-- `parse_status` (src/backend.rs, lines 217-228): maps an HTTP status code
to a `BackendResult`, translated arm by arm from the `match` on `StatusCode`. -/
def parse_status (code : Nat) : BackendResult :=
  if code = 200 ∨ code = 201 ∨ code = 202 then BackendResult.ok
  else if code = 400 ∨ code = 500 then BackendResult.error
  else if code = 401 ∨ code = 403 ∨ code = 405 then BackendResult.notAuthorized
  else if code = 408 then BackendResult.timeout
  else BackendResult.error

/-- Status-to-outcome table exactly as the spec words it (claim C5):
200, 201, 202 give Ok; 400 and 500 give Error; 401, 403, 405 give
NotAuthorized; 408 gives Timeout; any other code gives Error. -/
def statusToOutcomeSpec (code : Nat) : BackendResult :=
  if code = 200 ∨ code = 201 ∨ code = 202 then BackendResult.ok
  else if code = 400 ∨ code = 500 then BackendResult.error
  else if code = 401 ∨ code = 403 ∨ code = 405 then BackendResult.notAuthorized
  else if code = 408 then BackendResult.timeout
  else BackendResult.error

/-- A seekable byte source (the `Read + Seek` bound of `sha1_digest` and
`BlobContainer::put`): immutable contents plus a read position. -/
structure ByteStream where
  contents : List Nat
  pos : Nat
deriving DecidableEq

/-- One `Read::read` call with a buffer of size `n`: yields up to `n` bytes
from the current position and advances the position by the amount read. -/
def streamRead (s : ByteStream) (n : Nat) : List Nat × ByteStream :=
  let chunk := (s.contents.drop s.pos).take n
  (chunk, ⟨s.contents, s.pos + chunk.length⟩)

/-- The fixed buffer size of `sha1_digest` (src/common.rs line 23):
`[0; 1024 * 100]`, i.e. 100 KiB. -/
def bufferSize : Nat := 1024 * 100

/-- The read loop of `sha1_digest` (src/common.rs lines 25-31): repeatedly
read `bufferSize`-byte chunks, feeding each into the digest context (the
context state is the byte sequence fed so far), until a read returns 0. -/
def sha1Loop (s : ByteStream) (ctx : List Nat) : List Nat × ByteStream :=
  let r := streamRead s bufferSize
  if h : 0 < r.1.length then sha1Loop r.2 (ctx ++ r.1) else (ctx, r.2)
termination_by s.contents.length - s.pos
decreasing_by
  have h2 : 0 < ((s.contents.drop s.pos).take bufferSize).length := h
  have hlt : s.pos < s.contents.length := by
    by_contra hge
    have hnil : s.contents.drop s.pos = [] :=
      List.drop_eq_nil_of_le (Nat.le_of_not_lt hge)
    rw [hnil] at h2
    simp at h2
  show s.contents.length -
      (s.pos + ((s.contents.drop s.pos).take bufferSize).length) <
    s.contents.length - s.pos
  exact Nat.sub_lt_sub_left hlt (Nat.lt_add_of_pos_right h2)

/-- `sha1_digest` (src/common.rs lines 22-35): hash the stream from its
current position to the end in 100 KiB chunks, then seek back to the start.
`sha1fun` is the ring SHA-1 function (external), applied to the bytes fed
into the context. -/
def sha1_digest (sha1fun : List Nat → List Nat) (input : ByteStream) :
    List Nat × ByteStream :=
  let r := sha1Loop input []
  (sha1fun r.1, ⟨r.2.contents, 0⟩)

/-- Value of one hex digit (hex crate). -/
def hexVal (c : Char) : Option Nat :=
  if c ≥ '0' ∧ c ≤ '9' then some (c.toNat - 48)
  else if c ≥ 'a' ∧ c ≤ 'f' then some (c.toNat - 87)
  else if c ≥ 'A' ∧ c ≤ 'F' then some (c.toNat - 55)
  else none

/-- `Vec::from_hex` over a character list: two hex digits per byte; odd
length or a non-hex character fails. -/
def fromHexChars : List Char → Option (List Nat)
  | [] => some []
  | [_] => none
  | c1 :: c2 :: rest =>
      match hexVal c1 with
      | none => none
      | some h =>
          match hexVal c2 with
          | none => none
          | some l =>
              match fromHexChars rest with
              | none => none
              | some bs => some ((16 * h + l) :: bs)

/-- `Vec::from_hex` (hex crate, used by `BlobContainer::list`). -/
def fromHex (s : String) : Option (List Nat) :=
  fromHexChars s.data

/-- Association map standing in for `HashMap<String, usize>`: the shared
column-name-to-position index. -/
def hmGet (m : List (String × Nat)) (k : String) : Option Nat :=
  match m with
  | [] => none
  | (k2, v) :: rest => if k2 = k then some v else hmGet rest k

/-- `HashMap::insert`: replaces an existing binding for the key. -/
def hmInsert (m : List (String × Nat)) (k : String) (v : Nat) :
    List (String × Nat) :=
  match m with
  | [] => [(k, v)]
  | (k2, v2) :: rest =>
      if k2 = k then (k, v) :: rest else (k2, v2) :: hmInsert rest k v

/-- `Row` (src/row.rs): the JSON values of one result row plus the shared
column index. -/
structure Row where
  wrapped : List Value
  columns : List (String × Nat)

namespace ByIndex

/-- `ByIndex::as_string` (src/row.rs lines 67-72): `wrapped.get(idx).unwrap()`
panics past the row width (outer `none`); otherwise `as_str` gives `None`
on a non-string value. -/
def as_string (r : Row) (idx : Nat) : Option (Option String) :=
  (r.wrapped.get? idx).map Value.as_str

/-- `ByIndex::as_i64` (src/row.rs lines 74-76). -/
def as_i64 (r : Row) (idx : Nat) : Option (Option Int) :=
  (r.wrapped.get? idx).map Value.as_i64

/-- `ByIndex::as_u64` (src/row.rs lines 78-80). -/
def as_u64 (r : Row) (idx : Nat) : Option (Option Nat) :=
  (r.wrapped.get? idx).map Value.as_u64

/-- `ByIndex::as_f64` (src/row.rs lines 82-84). -/
def as_f64 (r : Row) (idx : Nat) : Option (Option Rat) :=
  (r.wrapped.get? idx).map Value.as_f64

/-- `ByIndex::as_bool` (src/row.rs lines 86-88). -/
def as_bool (r : Row) (idx : Nat) : Option (Option Bool) :=
  (r.wrapped.get? idx).map Value.as_bool

/-- `ByIndex::as_array` (src/row.rs lines 90-98), parameterized by the
element deserializer `dec` (`serde_json::from_value::<T>`): a non-array
value gives `None`; an array whose element fails to deserialize panics
(the `unwrap` inside the `map`), modelled as the outer `none`. -/
def as_array (dec : Value → Option α) (r : Row) (idx : Nat) :
    Option (Option (List α)) :=
  match r.wrapped.get? idx with
  | none => none
  | some v =>
      match v.as_array with
      | none => some none
      | some elems =>
          match optList dec elems with
          | none => none
          | some l => some (some l)

end ByIndex

namespace ByColumnName

/-- `ByColumnName::as_string` (src/row.rs lines 102-107). -/
def as_string (r : Row) (col : String) : Option (Option String) :=
  match hmGet r.columns col with
  | some idx => ByIndex.as_string r idx
  | none => some none

/-- `ByColumnName::as_i64` (src/row.rs lines 109-114). -/
def as_i64 (r : Row) (col : String) : Option (Option Int) :=
  match hmGet r.columns col with
  | some idx => ByIndex.as_i64 r idx
  | none => some none

/-- `ByColumnName::as_u64` (src/row.rs lines 116-121). -/
def as_u64 (r : Row) (col : String) : Option (Option Nat) :=
  match hmGet r.columns col with
  | some idx => ByIndex.as_u64 r idx
  | none => some none

/-- `ByColumnName::as_f64` (src/row.rs lines 123-128). -/
def as_f64 (r : Row) (col : String) : Option (Option Rat) :=
  match hmGet r.columns col with
  | some idx => ByIndex.as_f64 r idx
  | none => some none

/-- `ByColumnName::as_bool` (src/row.rs lines 130-135). -/
def as_bool (r : Row) (col : String) : Option (Option Bool) :=
  match hmGet r.columns col with
  | some idx => ByIndex.as_bool r idx
  | none => some none

/-- `ByColumnName::as_array` (src/row.rs lines 137-142). -/
def as_array (dec : Value → Option α) (r : Row) (col : String) :
    Option (Option (List α)) :=
  match hmGet r.columns col with
  | some idx => ByIndex.as_array dec r idx
  | none => some none

end ByColumnName

/-- `RowIterator` (src/rowiterator.rs): the raw row values and the shared
header map; rows are materialized into `Row`s lazily on iteration. -/
structure RowIterator where
  rows : List Value
  header : List (String × Nat)

/-- A parsed `hyper::Url`, identified with its normalized string rendering
(`Url::as_str`). -/
abbrev Url := String

/-- `EndpointType` (src/dbcluster.rs). -/
inductive EndpointType where
  | sql
  | blob

/-- The `Backend` trait (src/backend.rs): the transport capability a cluster
is polymorphic over. A trait object is modelled as a record of functions. -/
structure BackendM where
  execute : Option Url → Value → Except BackendError String
  upload_blob : Option Url → String → List Nat → ByteStream →
    Except BackendError BackendResult
  delete_blob : Option Url → String → List Nat →
    Except BackendError BackendResult
  fetch_blob : Option Url → String → List Nat →
    Except BackendError (BackendResult × List Nat)

/-- `DBCluster` (src/dbcluster.rs): node list plus backend. -/
structure DBCluster where
  nodes : List Url
  backend : BackendM

/-- `Loadbalancing::get_endpoint` (src/dbcluster.rs lines 69-81): `None` on
an empty node list, else a random node (the `random::<usize>()` draw is the
`rand` parameter) with the `_sql` / `_blobs` suffix appended. -/
def DBCluster.get_endpoint (c : DBCluster) (rand : Nat)
    (endpoint_type : EndpointType) : Option String :=
  if c.nodes.isEmpty then none
  else
    let host := c.nodes.getD (rand % c.nodes.length) ""
    match endpoint_type with
    | .sql => some (host ++ "_sql")
    | .blob => some (host ++ "_blobs")

/-- `DBCluster::new` (src/dbcluster.rs lines 96-108); the default HTTP
backend it wires in is the `backend` parameter. -/
def DBCluster.new (backend : BackendM) (nodes : List Url) :
    Except CrateDBConfigurationError DBCluster :=
  if nodes.length < 1 then
    Except.error ⟨"Please provide URLs to connect to"⟩
  else
    Except.ok ⟨nodes, backend⟩

/-- `DBCluster::with_custom_backend` (src/dbcluster.rs lines 141-146): no
check on the node list. -/
def with_custom_backend (nodes : List Url) (backend : BackendM) : DBCluster :=
  ⟨nodes, backend⟩

/-- Rust `str::split(',')` over the character list: splits at every comma,
keeping empty pieces; the result is never empty. -/
def splitComma : List Char → List (List Char)
  | [] => [[]]
  | c :: rest =>
      let r := splitComma rest
      if c = ',' then [] :: r
      else
        match r with
        | [] => [[c]]
        | h :: t => (c :: h) :: t

/-- The node candidates of `DBCluster::from_string`: the input split on commas. -/
def splitNodes (s : String) : List String :=
  (splitComma s.data).map (fun cs => String.mk cs)

/-- `DBCluster::from_string` (src/dbcluster.rs lines 161-173): split the
input on commas, `Url::parse(n).unwrap()` each candidate (`urlParse` is the
hyper parser; a failed parse is the unwrap panic, outer `none`), then the
emptiness guard. -/
def from_string (backend : BackendM) (urlParse : String → Option Url)
    (node_str : String) : Option (Except CrateDBConfigurationError DBCluster) :=
  match optList urlParse (splitNodes node_str) with
  | none => none
  | some nodes =>
      if nodes.length < 1 then
        some (Except.error ⟨"Please provide URLs to connect to"⟩)
      else
        some (Except.ok (with_custom_backend nodes backend))

/-- `extract_error` (src/sql.rs lines 122-130): `/error/message` must be a
string and `/error/code` an i64; each `unwrap` that fails is a panic
(`none`). The code is rendered as its decimal string. -/
def extract_error (data : Value) : Option CrateDBError :=
  match data.pointerPath ["error", "message"] with
  | none => none
  | some mv =>
      match mv.as_str with
      | none => none
      | some message =>
          match data.pointerPath ["error", "code"] with
          | none => none
          | some cv =>
              match cv.as_i64 with
              | none => none
              | some code => some (CrateDBError.new message (toString code))

/-- The `json!` request body built by `Executor::execute` (src/sql.rs lines
97-114); `none` is the `params.unwrap()` panic of the bulk arm. -/
def requestBody (stmt : String) (bulk : Bool) (params : Option Value) :
    Option Value :=
  if bulk then
    params.map (fun p => Value.obj [("stmt", .str stmt), ("bulk_args", p)])
  else
    match params with
    | some p => some (Value.obj [("stmt", .str stmt), ("args", p)])
    | none => some (Value.obj [("stmt", .str stmt)])

/-- `Executor::execute` (src/sql.rs lines 92-119): resolve a SQL endpoint,
build the request body, call the backend; a transport failure is converted
into the failure description as the response text. -/
def DBCluster.executeSql (c : DBCluster) (rand : Nat) (stmt : String)
    (bulk : Bool) (params : Option Value) : Option String :=
  let url := c.get_endpoint rand EndpointType.sql
  match requestBody stmt bulk params with
  | none => none
  | some body =>
      some (match c.backend.execute url body with
            | .ok r => r
            | .error e => e.description)

/-- Column-index construction of `QueryRunner::query` (src/sql.rs lines
149-155): insert `name → position` for every string entry of `/cols`,
skipping non-strings. -/
def buildCols (colsRaw : List Value) : List (String × Nat) :=
  (colsRaw.enum.foldl
    (fun m p =>
      match p.2 with
      | .str name => hmInsert m name p.1
      | _ => m)
    [])

/-- Response decoding of `QueryRunner::query` (src/sql.rs lines 142-164):
parse the body (`fromStr` is serde_json), then split on the presence of
`/cols`; the error arm runs `extract_error`; an unparsable body yields the
invalid-JSON `CrateDBError` with code 500. -/
def queryResponseDecode (fromStr : String → Option Value) (body : String) :
    Option (Except CrateDBError (Rat × RowIterator)) :=
  match fromStr body with
  | some data =>
      match data.pointerPath ["cols"] with
      | some colsRaw =>
          match data.pointerPath ["rows"] with
          | none => none
          | some rowsVal =>
              match rowsVal.as_array with
              | none => none
              | some rows =>
                  match colsRaw.as_array with
                  | none => none
                  | some colsArr =>
                      match data.pointerPath ["duration"] with
                      | none => none
                      | some dv =>
                          match dv.as_f64 with
                          | none => none
                          | some duration =>
                              some (Except.ok (duration, ⟨rows, buildCols colsArr⟩))
      | none =>
          match extract_error data with
          | none => none
          | some e => some (Except.error e)
  | none =>
      some (Except.error
        (CrateDBError.new ("Invalid JSON was returned: " ++ body) "500"))

/-- Response decoding of `QueryRunner::bulk_query` (src/sql.rs lines
176-192): on the `/cols` arm reads `/results` and each `/rowcount` as i64. -/
def bulkResponseDecode (fromStr : String → Option Value) (body : String) :
    Option (Except CrateDBError (Rat × List Int)) :=
  match fromStr body with
  | some data =>
      match data.pointerPath ["cols"] with
      | some _ =>
          match data.pointerPath ["results"] with
          | none => none
          | some rv =>
              match rv.as_array with
              | none => none
              | some results =>
                  match optList
                      (fun v =>
                        match v.pointerPath ["rowcount"] with
                        | none => none
                        | some rc => rc.as_i64)
                      results with
                  | none => none
                  | some rowcounts =>
                      match data.pointerPath ["duration"] with
                      | none => none
                      | some dv =>
                          match dv.as_f64 with
                          | none => none
                          | some duration => some (Except.ok (duration, rowcounts))
      | none =>
          match extract_error data with
          | none => none
          | some e => some (Except.error e)
  | none =>
      some (Except.error
        (CrateDBError.new ("Invalid JSON was returned: " ++ body) "500"))

/-- `QueryRunner::query` (src/sql.rs lines 133-165). -/
def DBCluster.query (c : DBCluster) (fromStr : String → Option Value)
    (rand : Nat) (stmt : String) (params : Option Value) :
    Option (Except CrateDBError (Rat × RowIterator)) :=
  match c.executeSql rand stmt false params with
  | none => none
  | some body => queryResponseDecode fromStr body

/-- `QueryRunner::bulk_query` (src/sql.rs lines 169-193). -/
def DBCluster.bulk_query (c : DBCluster) (fromStr : String → Option Value)
    (rand : Nat) (stmt : String) (params : Value) :
    Option (Except CrateDBError (Rat × List Int)) :=
  match c.executeSql rand stmt true (some params) with
  | none => none
  | some body => bulkResponseDecode fromStr body

/-- `BlobRef` (src/blob.rs): SHA-1 digest bytes plus the table/bucket. -/
structure BlobRef where
  sha1 : List Nat
  table : String
deriving DecidableEq

/-- `BlobContainer::put` (src/blob.rs lines 117-159): digest the stream
(which rewinds it), resolve a BLOB endpoint, upload, then map the outcome;
a transport failure becomes `BlobError::Transport`. -/
def DBCluster.put (c : DBCluster) (sha1fun : List Nat → List Nat)
    (rand : Nat) (table : String) (blob : ByteStream) :
    Except BlobError BlobRef :=
  let d := sha1_digest sha1fun blob
  let url := c.get_endpoint rand EndpointType.blob
  match c.backend.upload_blob url table d.1 d.2 with
  | .error e => Except.error (BlobError.transport e)
  | .ok status =>
      match status with
      | .ok => Except.ok ⟨d.1, table⟩
      | .notFound =>
          Except.error (BlobError.action
            (CrateDBError.new "Could not upload BLOB. Not found." "404"))
      | .notAuthorized =>
          Except.error (BlobError.action
            (CrateDBError.new "Could not upload BLOB: Not authorized." "403"))
      | .timeout =>
          Except.error (BlobError.action
            (CrateDBError.new "Could not upload BLOB. Timed out." "408"))
      | .error =>
          Except.error (BlobError.action
            (CrateDBError.new "Could not upload BLOB. Server error." "500"))

/-- `BlobContainer::delete` (src/blob.rs lines 163-191). -/
def DBCluster.delete (c : DBCluster) (rand : Nat) (blob : BlobRef) :
    Except BlobError Unit :=
  let url := c.get_endpoint rand EndpointType.blob
  match c.backend.delete_blob url blob.table blob.sha1 with
  | .error e => Except.error (BlobError.transport e)
  | .ok status =>
      match status with
      | .ok => Except.ok ()
      | .notFound =>
          Except.error (BlobError.action
            (CrateDBError.new "Could not delete BLOB. Not found." "404"))
      | .notAuthorized =>
          Except.error (BlobError.action
            (CrateDBError.new "Could not delete BLOB: Not authorized." "403"))
      | .timeout =>
          Except.error (BlobError.action
            (CrateDBError.new "Could not delete BLOB. Timed out." "408"))
      | .error =>
          Except.error (BlobError.action
            (CrateDBError.new "Could not delete BLOB. Server error." "500"))

/-- `BlobContainer::get` (src/blob.rs lines 194-222): on Ok returns the
fetched content stream. -/
def DBCluster.get (c : DBCluster) (rand : Nat) (blob : BlobRef) :
    Except BlobError (List Nat) :=
  let url := c.get_endpoint rand EndpointType.blob
  match c.backend.fetch_blob url blob.table blob.sha1 with
  | .error e => Except.error (BlobError.transport e)
  | .ok sc =>
      match sc.1 with
      | .ok => Except.ok sc.2
      | .notFound =>
          Except.error (BlobError.action
            (CrateDBError.new "Could not fetch BLOB. Not found." "404"))
      | .notAuthorized =>
          Except.error (BlobError.action
            (CrateDBError.new "Could not fetch BLOB: Not authorized." "403"))
      | .timeout =>
          Except.error (BlobError.action
            (CrateDBError.new "Could not fetch BLOB. Timed out." "408"))
      | .error =>
          Except.error (BlobError.action
            (CrateDBError.new "Could not fetch BLOB. Server error." "500"))

/-- The row loop of `BlobContainer::list` (src/blob.rs lines 229-239),
fused with the lazy row materialization of `RowIterator` (src/rowiterator.rs
line 36): each raw row is `as_array().unwrap()`-ed into a `Row` (panic on a
non-array row), then `row.as_string(0)` reads the digest (panic when the
row has no position 0); a non-string digest or a failed hex decode skips
the row. -/
def listCollect (table : String) (header : List (String × Nat)) :
    List Value → Option (List BlobRef)
  | [] => some []
  | r :: rest =>
      match r.as_array with
      | none => none
      | some vals =>
          match ByIndex.as_string ⟨vals, header⟩ 0 with
          | none => none
          | some none => listCollect table header rest
          | some (some digest_str) =>
              match fromHex digest_str with
              | none => listCollect table header rest
              | some digest =>
                  match listCollect table header rest with
                  | none => none
                  | some refs => some (⟨digest, table⟩ :: refs)

/-- `BlobContainer::list` (src/blob.rs lines 224-244): run
`select digest from blob.{table}` through the query runner, then collect
the hex-decoded digests; a SQL-level error is wrapped as
`BlobError::Action`. -/
def DBCluster.list (c : DBCluster) (fromStr : String → Option Value)
    (rand : Nat) (table : String) : Option (Except BlobError (List BlobRef)) :=
  match c.query fromStr rand ("select digest from blob." ++ table) none with
  | none => none
  | some (.error e) => some (Except.error (BlobError.action e))
  | some (.ok dr) =>
      match listCollect table dr.2.header dr.2.rows with
      | none => none
      | some refs => some (Except.ok refs)

/-- Spec-side helper (claim C6): the digest a response row contributes, when
the row is an array whose first entry is a string of valid hex. -/
def rowDigest (r : Value) : Option (List Nat) :=
  match r with
  | .arr (v :: _) =>
      match v.as_str with
      | some s => fromHex s
      | none => none
  | _ => none

/-- Spec-side helper (claim C8): resolve a column name through the shared
index and continue with the positional accessor, `None` when absent. -/
def resolveName (m : List (String × Nat)) (col : String)
    (k : Nat → Option (Option α)) : Option (Option α) :=
  match hmGet m col with
  | some idx => k idx
  | none => some none

/-- Spec-side helper (claim C3): what a positional array accessor does to
the value at a position below the row width: `None` on a non-array value;
on an array, element-wise decoding where any element failure is a panic. -/
def arrayRead (dec : Value → Option α) (v : Value) : Option (Option (List α)) :=
  match v.as_array with
  | none => some none
  | some elems =>
      match optList dec elems with
      | none => none
      | some l => some (some l)

/-! Helper lemmas shared by the claim theorems. -/

lemma optList_length {f : α → Option β} :
    ∀ {l : List α} {bs : List β}, optList f l = some bs → bs.length = l.length := by
  intro l
  induction l with
  | nil =>
      intro bs h
      simp [optList] at h
      simp [← h]
  | cons a rest ih =>
      intro bs h
      simp only [optList] at h
      cases hfa : f a with
      | none => rw [hfa] at h; exact absurd h (by simp)
      | some b =>
          rw [hfa] at h
          cases hrest : optList f rest with
          | none => rw [hrest] at h; exact absurd h (by simp)
          | some bs2 =>
              rw [hrest] at h
              cases h
              simp [ih hrest]

lemma optList_none_of_mem {f : α → Option β} :
    ∀ {l : List α} {u : α}, u ∈ l → f u = none → optList f l = none := by
  intro l
  induction l with
  | nil => intro u hu; exact absurd hu (by simp)
  | cons a rest ih =>
      intro u hu hfu
      rcases List.mem_cons.mp hu with h | h
      · subst h; simp [optList, hfu]
      · simp only [optList]
        cases hfa : f a with
        | none => rfl
        | some b => rw [ih h hfu]

lemma splitComma_length_pos : ∀ cs : List Char, 0 < (splitComma cs).length := by
  intro cs
  induction cs with
  | nil => simp [splitComma]
  | cons c rest ih =>
      simp only [splitComma]
      by_cases hc : c = ','
      · simp [hc]
      · simp only [hc, if_false]
        cases hr : splitComma rest with
        | nil => rw [hr] at ih; exact absurd ih (by simp)
        | cons h t => simp

lemma splitNodes_length_pos (s : String) : 0 < (splitNodes s).length := by
  simpa [splitNodes] using splitComma_length_pos s.data

lemma take_append_drop_length (k : Nat) (l : List α) :
    l.take k ++ l.drop (l.take k).length = l := by
  induction l generalizing k with
  | nil => simp
  | cons a t ih =>
      cases k with
      | zero => simp
      | succ k2 =>
          simp only [List.take_succ_cons, List.length_cons,
            List.drop_succ_cons, List.cons_append]
          rw [ih k2]

lemma sha1Loop_spec : ∀ (n : Nat) (s : ByteStream) (ctx : List Nat),
    s.contents.length - s.pos ≤ n →
    (sha1Loop s ctx).1 = ctx ++ s.contents.drop s.pos ∧
    (sha1Loop s ctx).2.contents = s.contents := by
  intro n
  induction n with
  | zero =>
      intro s ctx hle
      have hdrop : s.contents.drop s.pos = [] :=
        List.drop_eq_nil_of_le (Nat.le_of_sub_eq_zero (Nat.le_zero.mp hle))
      rw [sha1Loop]
      dsimp only [streamRead]
      rw [hdrop]
      simp
  | succ n ih =>
      intro s ctx hle
      rw [sha1Loop]
      dsimp only [streamRead]
      by_cases hpos : 0 < ((s.contents.drop s.pos).take bufferSize).length
      · rw [dif_pos hpos]
        have hmeas : s.contents.length -
            (s.pos + ((s.contents.drop s.pos).take bufferSize).length) ≤ n := by
          omega
        have hrec := ih ⟨s.contents,
          s.pos + ((s.contents.drop s.pos).take bufferSize).length⟩
          (ctx ++ (s.contents.drop s.pos).take bufferSize) hmeas
        refine ⟨?_, hrec.2⟩
        rw [hrec.1]
        dsimp only
        rw [List.append_assoc]
        congr 1
        rw [← List.drop_drop]
        exact take_append_drop_length bufferSize (s.contents.drop s.pos)
      · rw [dif_neg hpos]
        have htake : (s.contents.drop s.pos).take bufferSize = [] :=
          List.eq_nil_of_length_eq_zero (Nat.eq_zero_of_not_pos hpos)
        have hdrop : s.contents.drop s.pos = [] := by
          rcases List.take_eq_nil_iff.mp htake with h | h
          · exact absurd h (by simp [bufferSize])
          · exact h
        simp [hdrop]

lemma sha1_digest_spec (sha1fun : List Nat → List Nat) (contents : List Nat)
    (pos : Nat) :
    sha1_digest sha1fun ⟨contents, pos⟩ =
      (sha1fun (contents.drop pos), ⟨contents, 0⟩) := by
  have h := sha1Loop_spec (contents.length - pos) ⟨contents, pos⟩ [] (Nat.le_refl _)
  simp only [sha1_digest]
  rw [Prod.ext_iff]
  constructor
  · simp [h.1]
  · simp [h.2]

/-- C5: the status-to-outcome classification maps every HTTP status code
exactly as the spec table says: 200, 201, 202 to Ok; 400 and 500 to Error;
401, 403, 405 to NotAuthorized; 408 to Timeout; any other code to Error. -/
theorem C5_parse_status_matches_spec :
    ∀ code : Nat, parse_status code = statusToOutcomeSpec code :=
  fun _ => rfl

/-- C7: constructing a cluster with zero nodes fails with a
ConfigurationError and constructs nothing. The explicit-list constructor
rejects the empty list; for the comma-separated-string constructor the
candidate list is never empty (splitting always yields at least one piece),
so the zero-nodes case holds vacuously there. -/
theorem C7_zero_nodes_rejected :
    ∀ (backend : BackendM) (s : String),
      DBCluster.new backend [] =
        Except.error ⟨"Please provide URLs to connect to"⟩ ∧
      0 < (splitNodes s).length :=
  fun _ s => ⟨rfl, splitNodes_length_pos s⟩

/-- C10: `from_string` never returns a configuration error: for every input
it either panics (a candidate failed URL parsing, the unwrap) or succeeds;
splitting on commas always yields at least one candidate, so the empty-list
branch is unreachable; and a failing candidate makes the whole call panic. -/
theorem C10_from_string_never_configuration_error :
    ∀ (backend : BackendM) (urlParse : String → Option Url) (s : String),
      (from_string backend urlParse s = none ∨
        ∃ c, from_string backend urlParse s = some (Except.ok c)) ∧
      0 < (splitNodes s).length ∧
      ((∃ u, u ∈ splitNodes s ∧ urlParse u = none) →
        from_string backend urlParse s = none) := by
  intro backend urlParse s
  refine ⟨?_, splitNodes_length_pos s, ?_⟩
  · cases h : optList urlParse (splitNodes s) with
    | none => left; simp [from_string, h]
    | some nodes =>
        right
        have hlen : nodes.length = (splitNodes s).length := optList_length h
        have hguard : ¬ nodes.length < 1 := by
          rw [hlen]
          exact Nat.not_lt.mpr (splitNodes_length_pos s)
        refine ⟨with_custom_backend nodes backend, ?_⟩
        simp only [from_string, h]
        rw [if_neg hguard]
  · rintro ⟨u, hu, hpu⟩
    simp [from_string, optList_none_of_mem hu hpu]

/-- C10 witness: with a URL parser that rejects everything, `from_string`
on the empty input panics instead of returning an error. -/
theorem C10_witness :
    (∃ u, u ∈ splitNodes "" ∧ (fun (_ : String) => (none : Option Url)) u = none) ∧
    from_string ⟨fun _ _ => Except.error ⟨"nope"⟩, fun _ _ _ _ => Except.ok .ok,
        fun _ _ _ => Except.ok .ok, fun _ _ _ => Except.ok (.ok, [])⟩
      (fun _ => none) "" = none := by
  have hmem : "" ∈ splitNodes "" := by
    simp [splitNodes, splitComma]
  exact ⟨⟨"", hmem, rfl⟩,
    (C10_from_string_never_configuration_error _ (fun _ => none) "").2.2
      ⟨"", hmem, rfl⟩⟩

/-- C1: when the backend's execute call fails at the transport level, the
failure's description becomes the response body fed to JSON decoding, so
whenever that description is not valid JSON both `query` and `bulk_query`
fail with the ServerError whose message is "Invalid JSON was returned: "
followed by the raw body and whose code is "500". -/
theorem C1_transport_failure_invalid_json :
    ∀ (c : DBCluster) (fromStr : String → Option Value) (rand : Nat)
      (stmt : String) (params : Option Value) (bulkParams : Value)
      (e : BackendError),
      (∀ p, c.backend.execute (c.get_endpoint rand EndpointType.sql) p =
        Except.error e) →
      fromStr e.description = none →
      c.query fromStr rand stmt params =
        some (Except.error (CrateDBError.new
          ("Invalid JSON was returned: " ++ e.description) "500")) ∧
      c.bulk_query fromStr rand stmt bulkParams =
        some (Except.error (CrateDBError.new
          ("Invalid JSON was returned: " ++ e.description) "500")) := by
  intro c fromStr rand stmt params bulkParams e hexec hparse
  constructor
  · cases params with
    | none =>
        simp [DBCluster.query, DBCluster.executeSql, requestBody, hexec,
          queryResponseDecode, hparse]
    | some p =>
        simp [DBCluster.query, DBCluster.executeSql, requestBody, hexec,
          queryResponseDecode, hparse]
  · simp [DBCluster.bulk_query, DBCluster.executeSql, requestBody, hexec,
      bulkResponseDecode, hparse]

/-- Backend used by the C1 witness: every execute call fails with a
transport error whose description is not valid JSON. -/
def backendC1 : BackendM :=
  ⟨fun _ _ => Except.error ⟨"connection refused"⟩,
   fun _ _ _ _ => Except.ok .ok,
   fun _ _ _ => Except.ok .ok,
   fun _ _ _ => Except.ok (.ok, [])⟩

/-- C1 witness: a one-node cluster over the failing backend, with the
serde parse failing on the description, yields the invalid-JSON error. -/
theorem C1_witness :
    (∀ p, backendC1.execute
        (DBCluster.get_endpoint ⟨["http://localhost:4200/"], backendC1⟩ 0
          EndpointType.sql) p = Except.error ⟨"connection refused"⟩) ∧
    (fun (_ : String) => (none : Option Value)) "connection refused" = none ∧
    DBCluster.query ⟨["http://localhost:4200/"], backendC1⟩ (fun _ => none) 0
        "select 1" none =
      some (Except.error (CrateDBError.new
        "Invalid JSON was returned: connection refused" "500")) :=
  ⟨fun _ => rfl, rfl,
    (C1_transport_failure_invalid_json ⟨["http://localhost:4200/"], backendC1⟩
      (fun _ => none) 0 "select 1" none Value.null ⟨"connection refused"⟩
      (fun _ => rfl) rfl).1⟩

lemma extract_error_eq {data : Value} {m : String} {i : Int}
    (hm : (data.pointerPath ["error", "message"]).bind Value.as_str = some m)
    (hc : (data.pointerPath ["error", "code"]).bind Value.as_i64 = some i) :
    extract_error data = some (CrateDBError.new m (toString i)) := by
  rcases Option.bind_eq_some.mp hm with ⟨mv, hmv, hms⟩
  rcases Option.bind_eq_some.mp hc with ⟨cv, hcv, hci⟩
  simp [extract_error, hmv, hms, hcv, hci]

/-- C2 counterexample: a response with no `/cols` whose `/error/code` is the
string "5000" makes both `query` and `bulk_query` panic (the `as_i64`
unwrap in `extract_error`), not fail with a ServerError. -/
def backendC2 : BackendM :=
  ⟨fun _ _ => Except.ok "resp",
   fun _ _ _ _ => Except.ok .ok,
   fun _ _ _ => Except.ok .ok,
   fun _ _ _ => Except.ok (.ok, [])⟩

/-- The parsed form of the body
`{"error":{"message":"ReadOnlyException","code":"5000"}}`. -/
def errBodyC2 : Value :=
  .obj [("error", .obj [("message", .str "ReadOnlyException"),
                        ("code", .str "5000")])]

/-- C2 counterexample: with a string-valued `/error/code` the claim's
predicted ServerError \x7bmessage, code "5000"\x7d is not produced; the
call panics instead (modelled as `none`). -/
theorem C2_counterexample :
    DBCluster.query ⟨["http://localhost:4200/"], backendC2⟩
        (fun _ => some errBodyC2) 0 "stmt" none = none ∧
    DBCluster.bulk_query ⟨["http://localhost:4200/"], backendC2⟩
        (fun _ => some errBodyC2) 0 "stmt" Value.null = none :=
  ⟨rfl, rfl⟩

/-- C2 amended: for every response body that parses as JSON with no `/cols`
member, when `/error/message` is a string and `/error/code` an integer
representable as i64, `query` and `bulk_query` fail with the ServerError
built from the message and the code rendered as its decimal string. (A
string-valued code panics — see the counterexample.) -/
theorem C2_error_member_server_error :
    ∀ (c : DBCluster) (fromStr : String → Option Value) (rand : Nat)
      (stmt : String) (params : Option Value) (bulkParams : Value)
      (body : String) (data : Value) (m : String) (i : Int),
      (∀ p, c.backend.execute (c.get_endpoint rand EndpointType.sql) p =
        Except.ok body) →
      fromStr body = some data →
      data.pointerPath ["cols"] = none →
      (data.pointerPath ["error", "message"]).bind Value.as_str = some m →
      (data.pointerPath ["error", "code"]).bind Value.as_i64 = some i →
      c.query fromStr rand stmt params =
        some (Except.error (CrateDBError.new m (toString i))) ∧
      c.bulk_query fromStr rand stmt bulkParams =
        some (Except.error (CrateDBError.new m (toString i))) := by
  intro c fromStr rand stmt params bulkParams body data m i hexec hparse
    hcols hm hc
  have herr := extract_error_eq hm hc
  constructor
  · cases params with
    | none =>
        simp [DBCluster.query, DBCluster.executeSql, requestBody, hexec,
          queryResponseDecode, hparse, hcols, herr]
    | some p =>
        simp [DBCluster.query, DBCluster.executeSql, requestBody, hexec,
          queryResponseDecode, hparse, hcols, herr]
  · simp [DBCluster.bulk_query, DBCluster.executeSql, requestBody, hexec,
      bulkResponseDecode, hparse, hcols, herr]

/-- The parsed form of `{"error":{"message":"ReadOnlyException","code":5000}}`. -/
def errBodyC2int : Value :=
  .obj [("error", .obj [("message", .str "ReadOnlyException"),
                        ("code", .num (.posInt 5000))])]

/-- C2 witness: the spec's own example with integer code 5000 produces
ServerError with message "ReadOnlyException" and code "5000". -/
theorem C2_witness :
    (∀ p, backendC2.execute
        (DBCluster.get_endpoint ⟨["http://localhost:4200/"], backendC2⟩ 0
          EndpointType.sql) p = Except.ok "resp") ∧
    (errBodyC2int.pointerPath ["error", "message"]).bind Value.as_str =
      some "ReadOnlyException" ∧
    (errBodyC2int.pointerPath ["error", "code"]).bind Value.as_i64 =
      some 5000 ∧
    DBCluster.query ⟨["http://localhost:4200/"], backendC2⟩
        (fun _ => some errBodyC2int) 0 "stmt" none =
      some (Except.error (CrateDBError.new "ReadOnlyException"
        (toString (5000 : Int)))) :=
  ⟨fun _ => rfl, rfl, rfl,
    (C2_error_member_server_error ⟨["http://localhost:4200/"], backendC2⟩
      (fun _ => some errBodyC2int) 0 "stmt" none Value.null "resp"
      errBodyC2int "ReadOnlyException" 5000
      (fun _ => rfl) rfl rfl rfl rfl).1⟩

/-- Row used by the C3 counterexample: one value (so width 1), an array
whose element is a string. -/
def rowC3 : Row := ⟨[Value.arr [Value.str "x"]], []⟩

/-- C3 counterexample: at index 0, strictly below the declared row width,
`as_array` deserializing to i64 panics on the element decode failure
(the `unwrap` inside the `map`) instead of returning `None`. -/
theorem C3_counterexample :
    0 < rowC3.wrapped.length ∧
    ByIndex.as_array Value.as_i64 rowC3 0 = none :=
  ⟨Nat.one_pos, rfl⟩

/-- C3 amended: below the declared row width the scalar accessors
(as_string/as_i64/as_u64/as_f64/as_bool) never panic — they return exactly
the underlying JSON accessor's result, which is `None` on a type mismatch —
and `as_array` returns `None` on a non-array value but panics when an
element of an array fails to decode to the requested type; only access at
or past the row width (and that element-decode failure) is fatal. -/
theorem C3_typed_accessors_below_width :
    ∀ {α : Type} (dec : Value → Option α) (r : Row) (idx : Nat) (v : Value),
      r.wrapped.get? idx = some v →
      ByIndex.as_string r idx = some v.as_str ∧
      ByIndex.as_i64 r idx = some v.as_i64 ∧
      ByIndex.as_u64 r idx = some v.as_u64 ∧
      ByIndex.as_f64 r idx = some v.as_f64 ∧
      ByIndex.as_bool r idx = some v.as_bool ∧
      ByIndex.as_array dec r idx = arrayRead dec v := by
  intro α dec r idx v h
  rw [List.get?_eq_getElem?] at h
  refine ⟨?_, ?_, ?_, ?_, ?_, ?_⟩ <;>
    simp [ByIndex.as_string, ByIndex.as_i64, ByIndex.as_u64, ByIndex.as_f64,
      ByIndex.as_bool, ByIndex.as_array, arrayRead, h]

/-- Row used by the C3 and C8 witnesses. -/
def rowW : Row := ⟨[Value.bool true], [("flag", 0)]⟩

/-- C3 witness: at index 0 of a one-column row holding a boolean, every
accessor of the wrong type returns `None` without panicking. -/
theorem C3_witness :
    rowW.wrapped.get? 0 = some (Value.bool true) ∧
    (ByIndex.as_string rowW 0 = some none ∧
     ByIndex.as_i64 rowW 0 = some none ∧
     ByIndex.as_u64 rowW 0 = some none ∧
     ByIndex.as_f64 rowW 0 = some none ∧
     ByIndex.as_bool rowW 0 = some (some true) ∧
     ByIndex.as_array Value.as_i64 rowW 0 = some none) :=
  ⟨rfl, C3_typed_accessors_below_width Value.as_i64 rowW 0 (Value.bool true) rfl⟩

/-- C8: every ByColumnName accessor resolves the column name through the
shared index — returning `None` when the name is absent — and otherwise
returns exactly the ByIndex accessor's value at the resolved position. -/
theorem C8_by_column_name_matches_by_index :
    ∀ {α : Type} (r : Row) (col : String) (dec : Value → Option α),
      ByColumnName.as_string r col =
        resolveName r.columns col (ByIndex.as_string r) ∧
      ByColumnName.as_i64 r col =
        resolveName r.columns col (ByIndex.as_i64 r) ∧
      ByColumnName.as_u64 r col =
        resolveName r.columns col (ByIndex.as_u64 r) ∧
      ByColumnName.as_f64 r col =
        resolveName r.columns col (ByIndex.as_f64 r) ∧
      ByColumnName.as_bool r col =
        resolveName r.columns col (ByIndex.as_bool r) ∧
      ByColumnName.as_array dec r col =
        resolveName r.columns col (ByIndex.as_array dec r) :=
  fun _ _ _ => ⟨rfl, rfl, rfl, rfl, rfl, rfl⟩

/-- C4: `put` digests the stream by reading it to completion in 100 KiB
chunks (the `sha1Loop`/`bufferSize` definitions), rewinds it to position 0,
and hands the rewound stream to the upload step; on a successful upload the
returned BlobRef carries the SHA-1 of the full stream contents. -/
theorem C4_put_digest_and_rewind :
    ∀ (sha1fun : List Nat → List Nat) (contents : List Nat) (pos : Nat)
      (c : DBCluster) (rand : Nat) (table : String),
      sha1_digest sha1fun ⟨contents, pos⟩ =
        (sha1fun (contents.drop pos), (⟨contents, 0⟩ : ByteStream)) ∧
      (c.backend.upload_blob (c.get_endpoint rand EndpointType.blob) table
          (sha1fun contents) ⟨contents, 0⟩ = Except.ok BackendResult.ok →
        c.put sha1fun rand table ⟨contents, 0⟩ =
          Except.ok ⟨sha1fun contents, table⟩) := by
  intro sha1fun contents pos c rand table
  have hdig0 : sha1_digest sha1fun ⟨contents, 0⟩ =
      (sha1fun contents, (⟨contents, 0⟩ : ByteStream)) := by
    simpa using sha1_digest_spec sha1fun contents 0
  refine ⟨sha1_digest_spec sha1fun contents pos, fun hup => ?_⟩
  simp only [DBCluster.put, hdig0]
  rw [hup]

/-- Backend used by the C4 witness: uploads always succeed. -/
def backendC4 : BackendM :=
  ⟨fun _ _ => Except.ok "",
   fun _ _ _ _ => Except.ok .ok,
   fun _ _ _ => Except.ok .ok,
   fun _ _ _ => Except.ok (.ok, [])⟩

/-- C4 witness: with an always-succeeding upload backend, `put` of the
three-byte stream returns the BlobRef whose digest is the hash of the full
contents. -/
theorem C4_witness :
    backendC4.upload_blob
        (DBCluster.get_endpoint ⟨["http://localhost:4200/"], backendC4⟩ 0
          EndpointType.blob) "bucket"
        ((fun l => l) [1, 2, 3]) ⟨[1, 2, 3], 0⟩ = Except.ok BackendResult.ok ∧
    DBCluster.put ⟨["http://localhost:4200/"], backendC4⟩ (fun l => l) 0
        "bucket" ⟨[1, 2, 3], 0⟩ =
      Except.ok ⟨[1, 2, 3], "bucket"⟩ :=
  ⟨rfl,
    (C4_put_digest_and_rewind (fun l => l) [1, 2, 3] 0
      ⟨["http://localhost:4200/"], backendC4⟩ 0 "bucket").2 rfl⟩

lemma as_array_arr (vs : List Value) : (Value.arr vs).as_array = some vs := rfl

lemma listCollect_filterMap (table : String) (header : List (String × Nat)) :
    ∀ rows : List Value,
      (∀ r ∈ rows, ∃ v vs, r = Value.arr (v :: vs)) →
      listCollect table header rows =
        some (rows.filterMap
          (fun r => (rowDigest r).map
            (fun d => ({sha1 := d, table := table} : BlobRef)))) := by
  intro rows
  induction rows with
  | nil => intro _; simp [listCollect]
  | cons r rest ih =>
      intro hall
      obtain ⟨v, vs, hr⟩ := hall r (List.mem_cons_self r rest)
      subst hr
      have hrest := ih (fun x hx => hall x (List.mem_cons_of_mem _ hx))
      cases hvs : v.as_str with
      | none =>
          simp [listCollect, ByIndex.as_string, Value.as_array, hvs, hrest,
            List.filterMap_cons, rowDigest]
      | some s =>
          cases hhex : fromHex s with
          | none =>
              simp [listCollect, ByIndex.as_string, Value.as_array, hvs,
                hhex, hrest, List.filterMap_cons, rowDigest]
          | some digest =>
              simp [listCollect, ByIndex.as_string, Value.as_array, hvs,
                hhex, hrest, List.filterMap_cons, rowDigest]

/-- C6 amended: `list` issues `select digest from blob.{bucket}`; on a
response whose rows each have at least a first entry, it returns — in row
order — one BlobRef per row whose digest entry is a string of valid hex,
carrying the decoded digest and the bucket, silently dropping rows whose
digest is non-string or fails hex decoding. (A row with no first entry
panics instead of being dropped — see the counterexample.) -/
theorem C6_list_collects_valid_digests :
    ∀ (c : DBCluster) (fromStr : String → Option Value) (rand : Nat)
      (table : String) (body : String) (data colsRaw : Value)
      (colsArr rows : List Value) (dv : Value) (dur : Rat),
      c.backend.execute (c.get_endpoint rand EndpointType.sql)
          (Value.obj [("stmt",
            Value.str ("select digest from blob." ++ table))]) =
        Except.ok body →
      fromStr body = some data →
      data.pointerPath ["cols"] = some colsRaw →
      colsRaw.as_array = some colsArr →
      data.pointerPath ["rows"] = some (Value.arr rows) →
      data.pointerPath ["duration"] = some dv →
      dv.as_f64 = some dur →
      (∀ r ∈ rows, ∃ v vs, r = Value.arr (v :: vs)) →
      c.list fromStr rand table =
        some (Except.ok (rows.filterMap
          (fun r => (rowDigest r).map
            (fun d => ({sha1 := d, table := table} : BlobRef))))) := by
  intro c fromStr rand table body data colsRaw colsArr rows dv dur
    hexec hparse hcols harr hrows hdv hdur hall
  simp [DBCluster.list, DBCluster.query, DBCluster.executeSql,
    requestBody, hexec, queryResponseDecode, hparse, hcols, hrows,
    as_array_arr, harr, hdv, hdur,
    listCollect_filterMap table (buildCols colsArr) rows hall]

/-- Backend used by the C6 theorems: execute always returns the body
"resp". -/
def backendC6 : BackendM :=
  ⟨fun _ _ => Except.ok "resp",
   fun _ _ _ _ => Except.ok .ok,
   fun _ _ _ => Except.ok .ok,
   fun _ _ _ => Except.ok (.ok, [])⟩

/-- Parsed response for the C6 counterexample: one row with a valid hex
digest and one empty row (digest missing). -/
def respC6 : Value :=
  .obj [("cols", .arr [.str "digest"]),
        ("rows", .arr [.arr [.str "6666"], .arr []]),
        ("duration", .num (.posInt 0))]

/-- C6 counterexample: on a response with one valid-hex row and one row
whose digest is missing (an empty row array), `list` does not return the
single valid BlobRef — it panics (`row.as_string(0)` unwraps a `get` past
the row width), modelled as `none`. -/
theorem C6_counterexample :
    DBCluster.list ⟨["http://localhost:4200/"], backendC6⟩
        (fun _ => some respC6) 0 "bucket" = none :=
  rfl

/-- Parsed response for the C6 witness: two valid hex digests, one null
digest and one non-hex string digest. -/
def respC6w : Value :=
  .obj [("cols", .arr [.str "digest"]),
        ("rows", .arr [.arr [.str "6666"], .arr [Value.null],
                       .arr [.str "zz"], .arr [.str "0aff"]]),
        ("duration", .num (.posInt 0))]

/-- C6 witness: the two valid rows yield exactly two BlobRefs in row order
with the decoded digests and the bucket; the null and non-hex rows are
silently dropped. -/
theorem C6_witness :
    (∀ r ∈ [Value.arr [Value.str "6666"], Value.arr [Value.null],
            Value.arr [Value.str "zz"], Value.arr [Value.str "0aff"]],
      ∃ v vs, r = Value.arr (v :: vs)) ∧
    DBCluster.list ⟨["http://localhost:4200/"], backendC6⟩
        (fun _ => some respC6w) 0 "bucket" =
      some (Except.ok [⟨[102, 102], "bucket"⟩, ⟨[10, 255], "bucket"⟩]) := by
  have hall : ∀ r ∈ [Value.arr [Value.str "6666"], Value.arr [Value.null],
      Value.arr [Value.str "zz"], Value.arr [Value.str "0aff"]],
      ∃ v vs, r = Value.arr (v :: vs) := by
    intro r hr
    simp only [List.mem_cons, List.not_mem_nil, or_false] at hr
    rcases hr with h | h | h | h <;> exact ⟨_, _, h⟩
  refine ⟨hall, ?_⟩
  have h := C6_list_collects_valid_digests
    ⟨["http://localhost:4200/"], backendC6⟩ (fun _ => some respC6w) 0
    "bucket" "resp" respC6w (Value.arr [Value.str "digest"])
    [Value.str "digest"]
    [Value.arr [Value.str "6666"], Value.arr [Value.null],
     Value.arr [Value.str "zz"], Value.arr [Value.str "0aff"]]
    (Value.num (JNum.posInt 0)) ((0 : Nat) : Rat)
    rfl rfl rfl rfl rfl rfl rfl hall
  simpa using h

/-- C9 amended: `with_custom_backend` accepts any node list, including an
empty one, with no emptiness check; on a zero-node cluster `get_endpoint`
returns `None` for both endpoint types, and the operations pass that `None`
URL to the backend. A backend error on the blob operations surfaces as
`BlobError::Transport` without panicking; for `query`/`bulk_query` the
backend error's description is fed into JSON decoding and surfaces as the
invalid-JSON ServerError whenever that description is not valid JSON.
(A description that parses as JSON with neither `/cols` nor a well-formed
`/error` member panics — see the counterexample.) -/
theorem C9_zero_node_cluster_operations :
    (∀ (nodes : List Url) (b : BackendM),
      with_custom_backend nodes b = ⟨nodes, b⟩) ∧
    (∀ (b : BackendM) (rand : Nat),
      DBCluster.get_endpoint ⟨[], b⟩ rand EndpointType.sql = none ∧
      DBCluster.get_endpoint ⟨[], b⟩ rand EndpointType.blob = none) ∧
    (∀ (b : BackendM) (sha1fun : List Nat → List Nat) (rand : Nat)
        (table : String) (blob : ByteStream) (e : BackendError),
      (∀ tbl dgst strm, b.upload_blob none tbl dgst strm = Except.error e) →
      DBCluster.put ⟨[], b⟩ sha1fun rand table blob =
        Except.error (BlobError.transport e)) ∧
    (∀ (b : BackendM) (rand : Nat) (blob : BlobRef) (e : BackendError),
      (∀ tbl dgst, b.delete_blob none tbl dgst = Except.error e) →
      DBCluster.delete ⟨[], b⟩ rand blob =
        Except.error (BlobError.transport e)) ∧
    (∀ (b : BackendM) (rand : Nat) (blob : BlobRef) (e : BackendError),
      (∀ tbl dgst, b.fetch_blob none tbl dgst = Except.error e) →
      DBCluster.get ⟨[], b⟩ rand blob =
        Except.error (BlobError.transport e)) ∧
    (∀ (b : BackendM) (fromStr : String → Option Value) (rand : Nat)
        (stmt : String) (params : Option Value) (e : BackendError),
      (∀ p, b.execute none p = Except.error e) →
      fromStr e.description = none →
      DBCluster.query ⟨[], b⟩ fromStr rand stmt params =
        some (Except.error (CrateDBError.new
          ("Invalid JSON was returned: " ++ e.description) "500"))) ∧
    (∀ (b : BackendM) (fromStr : String → Option Value) (rand : Nat)
        (stmt : String) (bulkParams : Value) (e : BackendError),
      (∀ p, b.execute none p = Except.error e) →
      fromStr e.description = none →
      DBCluster.bulk_query ⟨[], b⟩ fromStr rand stmt bulkParams =
        some (Except.error (CrateDBError.new
          ("Invalid JSON was returned: " ++ e.description) "500"))) := by
  refine ⟨fun _ _ => rfl, fun _ _ => ⟨rfl, rfl⟩, ?_, ?_, ?_, ?_, ?_⟩
  · intro b sha1fun rand table blob e hup
    simp [DBCluster.put, DBCluster.get_endpoint, hup]
  · intro b rand blob e hdel
    simp [DBCluster.delete, DBCluster.get_endpoint, hdel]
  · intro b rand blob e hfetch
    simp [DBCluster.get, DBCluster.get_endpoint, hfetch]
  · intro b fromStr rand stmt params e hexec hparse
    cases params with
    | none =>
        simp [DBCluster.query, DBCluster.executeSql, DBCluster.get_endpoint,
          requestBody, hexec, queryResponseDecode, hparse]
    | some p =>
        simp [DBCluster.query, DBCluster.executeSql, DBCluster.get_endpoint,
          requestBody, hexec, queryResponseDecode, hparse]
  · intro b fromStr rand stmt bulkParams e hexec hparse
    simp [DBCluster.bulk_query, DBCluster.executeSql, DBCluster.get_endpoint,
      requestBody, hexec, bulkResponseDecode, hparse]

/-- Backend used by the C9 witness: every operation fails with the same
transport error. -/
def backendC9fail : BackendM :=
  ⟨fun _ _ => Except.error ⟨"no url"⟩,
   fun _ _ _ _ => Except.error ⟨"no url"⟩,
   fun _ _ _ => Except.error ⟨"no url"⟩,
   fun _ _ _ => Except.error ⟨"no url"⟩⟩

/-- C9 witness: on a zero-node cluster over the all-failing backend, the
blob operations return the transport error and `query` returns the
invalid-JSON ServerError embedding the backend error description. -/
theorem C9_witness :
    (∀ tbl dgst strm,
      backendC9fail.upload_blob none tbl dgst strm =
        Except.error ⟨"no url"⟩) ∧
    DBCluster.put ⟨[], backendC9fail⟩ (fun l => l) 0 "t" ⟨[], 0⟩ =
      Except.error (BlobError.transport ⟨"no url"⟩) ∧
    DBCluster.delete ⟨[], backendC9fail⟩ 0 ⟨[], "t"⟩ =
      Except.error (BlobError.transport ⟨"no url"⟩) ∧
    DBCluster.get ⟨[], backendC9fail⟩ 0 ⟨[], "t"⟩ =
      Except.error (BlobError.transport ⟨"no url"⟩) ∧
    DBCluster.query ⟨[], backendC9fail⟩ (fun _ => none) 0 "select 1" none =
      some (Except.error (CrateDBError.new
        "Invalid JSON was returned: no url" "500")) :=
  ⟨fun _ _ _ => rfl,
   C9_zero_node_cluster_operations.2.2.1 backendC9fail (fun l => l) 0 "t"
     ⟨[], 0⟩ ⟨"no url"⟩ (fun _ _ _ => rfl),
   C9_zero_node_cluster_operations.2.2.2.1 backendC9fail 0 ⟨[], "t"⟩
     ⟨"no url"⟩ (fun _ _ => rfl),
   C9_zero_node_cluster_operations.2.2.2.2.1 backendC9fail 0 ⟨[], "t"⟩
     ⟨"no url"⟩ (fun _ _ => rfl),
   C9_zero_node_cluster_operations.2.2.2.2.2.1 backendC9fail (fun _ => none)
     0 "select 1" none ⟨"no url"⟩ (fun _ => rfl) rfl⟩

/-- Backend used by the C9 counterexample: execute fails with a transport
error whose description is the valid-JSON text "\x7b\x7d" (an empty
object). -/
def backendC9obj : BackendM :=
  ⟨fun _ _ => Except.error ⟨"\x7b\x7d"⟩,
   fun _ _ _ _ => Except.ok .ok,
   fun _ _ _ => Except.ok .ok,
   fun _ _ _ => Except.ok (.ok, [])⟩

/-- C9 counterexample: on a zero-node cluster, a backend error whose
description parses as JSON with neither `/cols` nor `/error` does not
surface through the typed error path — `query` panics (the unwrap inside
`extract_error`), modelled as `none`. -/
theorem C9_counterexample :
    DBCluster.query ⟨[], backendC9obj⟩
        (fun _ => some (Value.obj [])) 0 "select 1" none = none :=
  rfl

end CrateDB
